import Mathlib

/-!
Verification of the material-order CRUD routes of
`src/routes/materialOrderRoute.js`.

Request-body values are modelled as JavaScript numbers or strings; a
JavaScript number is modelled as `NaN` or an exact rational (the rounding
of binary64 arithmetic is abstracted to exact arithmetic). Absent fields
are `none`. The storage collaborator (the mongoose model file
`src/database/Schema/materialOrderSchema.js` is not among the sources) is
modelled from the spec: an association list of documents with
find-by-id, merge-update and delete.
-/

set_option maxRecDepth 4000

namespace MaterialOrderRoute

/-- A JavaScript number: `NaN` or a finite value, modelled as an exact
rational. -/
inductive JsNum where
  | nan : JsNum
  | num : ℚ → JsNum
deriving DecidableEq

/-- A JavaScript request-body value relevant to this service: a number or a
string. -/
inductive JsValue where
  | vNum : JsNum → JsValue
  | vStr : String → JsValue
deriving DecidableEq

/-- JavaScript truthiness of a value: `NaN`, `0` and the empty string are
falsy. -/
def truthyVal : JsValue → Bool
  | .vNum .nan => false
  | .vNum (.num q) => q != 0
  | .vStr s => s != ""

/-- Truthiness of a possibly absent field (`undefined` is falsy). -/
def truthy : Option JsValue → Bool
  | none => false
  | some v => truthyVal v

/-- Splits off the longest leading run of decimal digits. -/
def takeDigits : List Char → List Char × List Char
  | [] => ([], [])
  | c :: cs =>
    if c.isDigit then
      let r := takeDigits cs
      (c :: r.1, r.2)
    else ([], c :: cs)

/-- The natural number denoted by a list of decimal digits. -/
def digitsToNat (l : List Char) : ℕ :=
  l.foldl (fun a c => 10 * a + (c.toNat - 48)) 0

/-- Parses an unsigned decimal literal (integer digits, optional fraction)
from the front of a character list, returning its exact value and the rest;
`none` when no digit is found. -/
def parseUnsigned (cs : List Char) : Option (ℚ × List Char) :=
  let ip := takeDigits cs
  match ip.2 with
  | '.' :: r2 =>
    let fp := takeDigits r2
    if ip.1 = [] ∧ fp.1 = [] then none
    else
      some ((digitsToNat ip.1 : ℚ) + (digitsToNat fp.1 : ℚ) / (10 : ℚ) ^ fp.1.length, fp.2)
  | _ =>
    if ip.1 = [] then none else some ((digitsToNat ip.1 : ℚ), ip.2)

/-- Parses an optional sign followed by an unsigned decimal literal. -/
def parseSigned (cs : List Char) : Option (ℚ × List Char) :=
  match cs with
  | '-' :: r => (parseUnsigned r).map (fun p => (-p.1, p.2))
  | '+' :: r => parseUnsigned r
  | _ => parseUnsigned cs

/-- Modelled JavaScript builtin: `parseFloat` on a string — skip leading
whitespace, read the longest decimal-literal prefix, `NaN` when there is
none. (Exponent and Infinity forms are outside the model.) -/
def parseFloatStr (s : String) : JsNum :=
  match parseSigned (s.toList.dropWhile Char.isWhitespace) with
  | some p => .num p.1
  | none => .nan

/-- Modelled JavaScript builtin: `parseFloat` applied to a request value
(a number round-trips through its decimal string form). -/
def parseFloatVal : JsValue → JsNum
  | .vNum n => n
  | .vStr s => parseFloatStr s

/-- `parseFloat` of a possibly absent field (`parseFloat(undefined)` is
`NaN`). -/
def parseField : Option JsValue → JsNum
  | none => .nan
  | some v => parseFloatVal v

/-- Modelled JavaScript builtin: the `isNaN` test on a parsed number. -/
def JsNum.isNaN : JsNum → Bool
  | .nan => true
  | .num _ => false

/-- JavaScript multiplication on numbers (`NaN` absorbs). -/
def jsMul : JsNum → JsNum → JsNum
  | .num a, .num b => .num (a * b)
  | _, _ => .nan

/-- Modelled JavaScript builtin: `parseFloat(x.toFixed(2))` — rounding to
two decimal places with ties toward the larger value, as
`Number.prototype.toFixed` specifies; `NaN` passes through. -/
def roundedToFixed2 : JsNum → JsNum
  | .nan => .nan
  | .num q => .num (((⌊q * 100 + 1 / 2⌋ : ℤ) : ℚ) / 100)

/-- JavaScript strict equality between two numbers (`NaN` is equal to
nothing, itself included). -/
def strictEqNum : JsNum → JsNum → Bool
  | .num a, .num b => a == b
  | _, _ => false

/-- The request body of a create or update request: each field is either
absent (`none`) or present with a value. -/
structure Payload where
  materialId : Option JsValue := none
  itemDescription : Option JsValue := none
  supplier : Option JsValue := none
  quantity : Option JsValue := none
  unitOfMeasurement : Option JsValue := none
  unitPrice : Option JsValue := none
  totalPrice : Option JsValue := none
  orderDate : Option JsValue := none
  items : Option JsValue := none
  status : Option JsValue := none
deriving DecidableEq

/-- A stored material-order document. -/
structure MaterialOrder where
  materialId : Option JsValue
  itemDescription : Option JsValue
  supplier : Option JsValue
  quantity : Option JsValue
  unitOfMeasurement : Option JsValue
  unitPrice : Option JsValue
  totalPrice : Option JsValue
  orderDate : Option JsValue
  items : Option JsValue
  status : Option JsValue
deriving DecidableEq

/-- JavaScript `x || d` for a possibly absent `x`: the value when truthy,
otherwise the default. -/
def jsOr (v : Option JsValue) (d : JsValue) : JsValue :=
  match v with
  | some x => if truthyVal x then x else d
  | none => d

/-- The outcome of the create route (the 500 branch models an external
storage failure and is out of scope). -/
inductive CreateResult where
  | badRequest (message : String)
  | created (message : String) (order : MaterialOrder)
deriving DecidableEq

/-- The missing-required-fields test of the create route
(`!materialId || ... || !orderDate`). -/
def requiredMissing (p : Payload) : Bool :=
  !truthy p.materialId || !truthy p.itemDescription || !truthy p.supplier ||
  !truthy p.quantity || !truthy p.unitOfMeasurement || !truthy p.unitPrice ||
  !truthy p.totalPrice || !truthy p.orderDate

/-- `router.post("/")`: required-field check, numeric parse with NaN check,
total-price arithmetic check, then the new document with status defaulting
to `"Pending"`; persistence success is assumed. -/
def createOrder (p : Payload) : CreateResult :=
  if requiredMissing p then .badRequest "All fields are required."
  else if (parseField p.quantity).isNaN || (parseField p.unitPrice).isNaN ||
      (parseField p.totalPrice).isNaN then
    .badRequest "Quantity, Unit Price, and Total Price must be valid numbers."
  else if !strictEqNum (roundedToFixed2 (jsMul (parseField p.quantity) (parseField p.unitPrice)))
      (parseField p.totalPrice) then
    .badRequest "Error in Total Price: Your total price is incorrect"
  else
    .created "Material Request created successfully"
      { materialId := p.materialId
        itemDescription := p.itemDescription
        supplier := p.supplier
        quantity := some (.vNum (parseField p.quantity))
        unitOfMeasurement := p.unitOfMeasurement
        unitPrice := some (.vNum (parseField p.unitPrice))
        totalPrice := some (.vNum (parseField p.totalPrice))
        orderDate := p.orderDate
        items := p.items
        status := some (jsOr p.status (.vStr "Pending")) }

/-- ToNumber coercion applied by `*` to its operands (modelled JavaScript
builtin): numbers pass through; a string must consist entirely of an
optional decimal literal (a blank string is `0`); an absent value
(`undefined`) is `NaN`. -/
def toNumberField : Option JsValue → JsNum
  | none => .nan
  | some (.vNum n) => n
  | some (.vStr s) =>
    let t := ((s.toList.dropWhile Char.isWhitespace).reverse.dropWhile Char.isWhitespace).reverse
    if t = [] then .num 0
    else
      match parseSigned t with
      | some p => if p.2 = [] then .num p.1 else .nan
      | none => .nan

/-- The numeric-field mutation of the update route: a field is replaced by
its `parseFloat` when truthy (`if (updates.x) updates.x = parseFloat(updates.x)`). -/
def parseIfTruthy (v : Option JsValue) : Option JsValue :=
  match v with
  | some x => if truthyVal x then some (.vNum (parseFloatVal x)) else some x
  | none => none

/-- The update payload after the three numeric-field mutations. -/
def parseUpdates (p : Payload) : Payload :=
  { p with
    quantity := parseIfTruthy p.quantity
    unitPrice := parseIfTruthy p.unitPrice
    totalPrice := parseIfTruthy p.totalPrice }

/-- `roundedCalculatedTotal !== updates.totalPrice`: strict inequality of a
number against a possibly absent value. -/
def strictNeNum (a : JsNum) : Option JsValue → Bool
  | some (.vNum b) => !strictEqNum a b
  | some (.vStr _) => true
  | none => true

/-- The outcome of the update route (the 500 branch models an external
storage failure and is out of scope). -/
inductive UpdateResult where
  | badRequest (message : String)
  | notFound (message : String)
  | ok (message : String) (order : MaterialOrder)
deriving DecidableEq

/-- Modelled from the spec: the merge of `findByIdAndUpdate` on the storage
collaborator (`src/database/Schema/materialOrderSchema.js` is not among the
sources) — fields present in the update replace the stored ones, absent
fields are left unchanged. -/
def setField (upd cur : Option JsValue) : Option JsValue :=
  match upd with
  | some v => some v
  | none => cur

/-- Field-wise merge of an update payload into a stored document. -/
def mergeOrder (r : MaterialOrder) (u : Payload) : MaterialOrder :=
  { materialId := setField u.materialId r.materialId
    itemDescription := setField u.itemDescription r.itemDescription
    supplier := setField u.supplier r.supplier
    quantity := setField u.quantity r.quantity
    unitOfMeasurement := setField u.unitOfMeasurement r.unitOfMeasurement
    unitPrice := setField u.unitPrice r.unitPrice
    totalPrice := setField u.totalPrice r.totalPrice
    orderDate := setField u.orderDate r.orderDate
    items := setField u.items r.items
    status := setField u.status r.status }

/-- The tail of the update route: `findByIdAndUpdate` with `new: true`
returning the post-update document, 404 when the id resolves to nothing;
`stored` is the record the id resolves to, if any. -/
def applyUpdate (stored : Option MaterialOrder) (updates : Payload) : UpdateResult :=
  match stored with
  | none => .notFound "Material request not found"
  | some r => .ok "Material request updated successfully" (mergeOrder r updates)

/-- `router.put("/:id")`: parse the truthy numeric fields, recheck the total
price only when the (post-parse) quantity and unitPrice are truthy and the
totalPrice is truthy, then find-and-update. -/
def updateOrder (stored : Option MaterialOrder) (p : Payload) : UpdateResult :=
  if truthy (parseUpdates p).quantity && truthy (parseUpdates p).unitPrice then
    if truthy (parseUpdates p).totalPrice &&
        strictNeNum (roundedToFixed2 (jsMul (toNumberField (parseUpdates p).quantity)
          (toNumberField (parseUpdates p).unitPrice))) (parseUpdates p).totalPrice then
      .badRequest "Error in Total Price: Your total price is incorrect."
    else applyUpdate stored (parseUpdates p)
  else applyUpdate stored (parseUpdates p)

/-- Modelled from the spec: the stored collection of the storage
collaborator, an association list of documents keyed by id. -/
abbrev Store := List (ℕ × MaterialOrder)

/-- Modelled from the spec: find-by-id over the stored collection. -/
def findByIdFn (db : Store) (id : ℕ) : Option MaterialOrder :=
  (db.find? (fun e => e.1 == id)).map (fun e => e.2)

/-- The outcome of the get-by-id route (the 500 branch models an external
storage failure and is out of scope). -/
inductive GetResult where
  | notFound (message : String)
  | ok (order : MaterialOrder)
deriving DecidableEq

/-- `router.get("/:id")`: 404 when the id resolves to nothing, else the
record. -/
def getById (db : Store) (id : ℕ) : GetResult :=
  match findByIdFn db id with
  | none => .notFound "Material order not found"
  | some o => .ok o

/-- The outcome of the delete route (the 500 branch models an external
storage failure and is out of scope). -/
inductive DeleteResult where
  | notFound (message : String)
  | okMsg (message : String)
deriving DecidableEq

/-- `router.delete("/:id")` with `findByIdAndDelete` modelled from the spec:
remove the document the id resolves to, answering only a message; 404 when
none. -/
def deleteById (db : Store) (id : ℕ) : DeleteResult × Store :=
  match findByIdFn db id with
  | none => (.notFound "Material order not found", db)
  | some _ =>
    (.okMsg "Material order deleted successfully", db.eraseP (fun e => e.1 == id))

/-- A sample stored document used by the concrete witnesses. -/
def sampleOrder : MaterialOrder :=
  { materialId := some (.vStr "M1")
    itemDescription := some (.vStr "Bolt")
    supplier := some (.vStr "Acme")
    quantity := some (.vNum (.num 10))
    unitOfMeasurement := some (.vStr "pcs")
    unitPrice := some (.vNum (.num 2))
    totalPrice := some (.vNum (.num 20))
    orderDate := some (.vStr "2024-01-01")
    items := none
    status := some (.vStr "Pending") }

/-- A create payload that reaches the arithmetic check with
quantity 3, unitPrice 2.505 and totalPrice 7.50. -/
def mismatchPayload : Payload :=
  { materialId := some (.vStr "M1")
    itemDescription := some (.vStr "Bolt")
    supplier := some (.vStr "Acme")
    quantity := some (.vNum (.num 3))
    unitOfMeasurement := some (.vStr "pcs")
    unitPrice := some (.vNum (.num (2505/1000)))
    totalPrice := some (.vNum (.num (750/100)))
    orderDate := some (.vStr "2024-01-01") }

/-- A create payload whose quantity is the non-numeric string "abc". -/
def nanPayload : Payload :=
  { materialId := some (.vStr "M1")
    itemDescription := some (.vStr "Bolt")
    supplier := some (.vStr "Acme")
    quantity := some (.vStr "abc")
    unitOfMeasurement := some (.vStr "pcs")
    unitPrice := some (.vNum (.num 2))
    totalPrice := some (.vNum (.num 20))
    orderDate := some (.vStr "2024-01-01") }

/-- A fully valid create payload: quantity 10, unitPrice 2.5,
totalPrice 25, no status. -/
def validPayload : Payload :=
  { materialId := some (.vStr "M1")
    itemDescription := some (.vStr "Bolt")
    supplier := some (.vStr "Acme")
    quantity := some (.vNum (.num 10))
    unitOfMeasurement := some (.vStr "pcs")
    unitPrice := some (.vNum (.num (25/10)))
    totalPrice := some (.vNum (.num 25))
    orderDate := some (.vStr "2024-01-01") }

/-- C3: a create payload in which any required field is missing or falsy is
answered 400 with "All fields are required." and nothing is stored. -/
theorem create_missing_required_field_rejected (p : Payload)
    (h : truthy p.materialId = false ∨ truthy p.itemDescription = false ∨
      truthy p.supplier = false ∨ truthy p.quantity = false ∨
      truthy p.unitOfMeasurement = false ∨ truthy p.unitPrice = false ∨
      truthy p.totalPrice = false ∨ truthy p.orderDate = false) :
    createOrder p = .badRequest "All fields are required." := by
  have hm : requiredMissing p = true := by
    rcases h with h | h | h | h | h | h | h | h <;> simp [requiredMissing, h]
  simp [createOrder, hm]

/-- Witness for C3: the empty payload is rejected with the
required-fields message. -/
theorem create_missing_required_field_rejected_witness :
    createOrder {} = CreateResult.badRequest "All fields are required." :=
  create_missing_required_field_rejected {} (Or.inl rfl)

/-- C4: a create payload that passes the required-field check but in which
quantity, unitPrice or totalPrice parses to NaN is answered 400 with the
valid-numbers message and nothing is stored. -/
theorem create_nan_rejected (p : Payload)
    (hreq : requiredMissing p = false)
    (h : (parseField p.quantity).isNaN = true ∨ (parseField p.unitPrice).isNaN = true ∨
      (parseField p.totalPrice).isNaN = true) :
    createOrder p =
      .badRequest "Quantity, Unit Price, and Total Price must be valid numbers." := by
  rcases h with h | h | h <;> simp [createOrder, hreq, h]

/-- Witness for C4: a payload whose quantity is the string "abc" is rejected
with the valid-numbers message. -/
theorem create_nan_rejected_witness :
    createOrder nanPayload =
      CreateResult.badRequest "Quantity, Unit Price, and Total Price must be valid numbers." :=
  create_nan_rejected nanPayload (by norm_num [requiredMissing, truthy, truthyVal, nanPayload] <;> decide)
    (Or.inl (by decide))

/-- C1: a create payload that passes the required-field and NaN checks but
whose totalPrice differs from the two-decimal rounding of
quantity times unitPrice is answered 400 with the total-price-mismatch
message. -/
theorem create_total_price_mismatch_rejected (p : Payload)
    (hreq : requiredMissing p = false)
    (hq : (parseField p.quantity).isNaN = false)
    (hu : (parseField p.unitPrice).isNaN = false)
    (ht : (parseField p.totalPrice).isNaN = false)
    (hne : strictEqNum (roundedToFixed2 (jsMul (parseField p.quantity) (parseField p.unitPrice)))
      (parseField p.totalPrice) = false) :
    createOrder p = .badRequest "Error in Total Price: Your total price is incorrect" := by
  simp [createOrder, hreq, hq, hu, ht, hne]

/-- Witness for C1: quantity 3 times unitPrice 2.505 rounds to 7.52, so a
totalPrice of 7.50 is rejected with the total-price-mismatch message. -/
theorem create_total_price_mismatch_rejected_witness :
    roundedToFixed2 (jsMul (.num 3) (.num (2505/1000))) = .num (752/100) ∧
    createOrder mismatchPayload =
      CreateResult.badRequest "Error in Total Price: Your total price is incorrect" :=
  ⟨by norm_num [roundedToFixed2, jsMul],
   create_total_price_mismatch_rejected mismatchPayload
    (by norm_num [requiredMissing, truthy, truthyVal, mismatchPayload] <;> decide)
    (by norm_num [parseField, parseFloatVal, mismatchPayload, JsNum.isNaN])
    (by norm_num [parseField, parseFloatVal, mismatchPayload, JsNum.isNaN])
    (by norm_num [parseField, parseFloatVal, mismatchPayload, JsNum.isNaN])
    (by norm_num [parseField, parseFloatVal, mismatchPayload, strictEqNum,
      roundedToFixed2, jsMul])⟩

/-- C5: a create payload that passes every check is persisted with the
parsed numeric fields, a status of the payload when truthy or the literal
"Pending" when absent, and answered 201 with a message and the order. -/
theorem create_valid_persists (p : Payload)
    (hreq : requiredMissing p = false)
    (hq : (parseField p.quantity).isNaN = false)
    (hu : (parseField p.unitPrice).isNaN = false)
    (ht : (parseField p.totalPrice).isNaN = false)
    (heq : strictEqNum (roundedToFixed2 (jsMul (parseField p.quantity) (parseField p.unitPrice)))
      (parseField p.totalPrice) = true) :
    createOrder p = .created "Material Request created successfully"
      { materialId := p.materialId
        itemDescription := p.itemDescription
        supplier := p.supplier
        quantity := some (.vNum (parseField p.quantity))
        unitOfMeasurement := p.unitOfMeasurement
        unitPrice := some (.vNum (parseField p.unitPrice))
        totalPrice := some (.vNum (parseField p.totalPrice))
        orderDate := p.orderDate
        items := p.items
        status := some (jsOr p.status (.vStr "Pending")) } ∧
    (p.status = none → jsOr p.status (.vStr "Pending") = .vStr "Pending") ∧
    (truthy p.status = true → some (jsOr p.status (.vStr "Pending")) = p.status) := by
  refine ⟨by simp [createOrder, hreq, hq, hu, ht, heq], ?_, ?_⟩
  · intro hs
    simp [jsOr, hs]
  · intro hs
    cases hv : p.status with
    | none => rw [hv] at hs; simp [truthy] at hs
    | some x =>
      rw [hv] at hs
      simp [truthy] at hs
      simp [jsOr, hs]

/-- Witness for C5: the valid payload with quantity 10, unitPrice 2.5 and
totalPrice 25 is persisted as parsed, with status defaulting to
"Pending". -/
theorem create_valid_persists_witness :
    createOrder validPayload = CreateResult.created "Material Request created successfully"
      { materialId := validPayload.materialId
        itemDescription := validPayload.itemDescription
        supplier := validPayload.supplier
        quantity := some (.vNum (parseField validPayload.quantity))
        unitOfMeasurement := validPayload.unitOfMeasurement
        unitPrice := some (.vNum (parseField validPayload.unitPrice))
        totalPrice := some (.vNum (parseField validPayload.totalPrice))
        orderDate := validPayload.orderDate
        items := validPayload.items
        status := some (jsOr validPayload.status (.vStr "Pending")) } ∧
    (validPayload.status = none → jsOr validPayload.status (.vStr "Pending") = .vStr "Pending") ∧
    (truthy validPayload.status = true →
      some (jsOr validPayload.status (.vStr "Pending")) = validPayload.status) :=
  create_valid_persists validPayload
    (by norm_num [requiredMissing, truthy, truthyVal, validPayload] <;> decide)
    (by norm_num [parseField, parseFloatVal, validPayload, JsNum.isNaN])
    (by norm_num [parseField, parseFloatVal, validPayload, JsNum.isNaN])
    (by norm_num [parseField, parseFloatVal, validPayload, JsNum.isNaN])
    (by norm_num [parseField, parseFloatVal, validPayload, strictEqNum,
      roundedToFixed2, jsMul])

/-- C10: a valid create payload whose status is present but falsy (for
example the empty string) is stored with status "Pending", which differs
from the supplied value. -/
theorem create_falsy_status_defaults (p : Payload) (v : JsValue)
    (hreq : requiredMissing p = false)
    (hq : (parseField p.quantity).isNaN = false)
    (hu : (parseField p.unitPrice).isNaN = false)
    (ht : (parseField p.totalPrice).isNaN = false)
    (heq : strictEqNum (roundedToFixed2 (jsMul (parseField p.quantity) (parseField p.unitPrice)))
      (parseField p.totalPrice) = true)
    (hs : p.status = some v) (hf : truthyVal v = false) :
    createOrder p = .created "Material Request created successfully"
      { materialId := p.materialId
        itemDescription := p.itemDescription
        supplier := p.supplier
        quantity := some (.vNum (parseField p.quantity))
        unitOfMeasurement := p.unitOfMeasurement
        unitPrice := some (.vNum (parseField p.unitPrice))
        totalPrice := some (.vNum (parseField p.totalPrice))
        orderDate := p.orderDate
        items := p.items
        status := some (.vStr "Pending") } ∧ JsValue.vStr "Pending" ≠ v := by
  constructor
  · have hj : jsOr p.status (.vStr "Pending") = .vStr "Pending" := by
      simp [jsOr, hs, hf]
    simp [createOrder, hreq, hq, hu, ht, heq, hj]
  · intro hcontra
    rw [← hcontra] at hf
    simp [truthyVal] at hf

/-- The valid payload of C10 with an empty-string status. -/
def falsyStatusPayload : Payload :=
  { validPayload with status := some (.vStr "") }

/-- Witness for C10: the valid payload with an empty-string status is stored
with status "Pending". -/
theorem create_falsy_status_defaults_witness :
    createOrder falsyStatusPayload =
      CreateResult.created "Material Request created successfully"
        { materialId := falsyStatusPayload.materialId
          itemDescription := falsyStatusPayload.itemDescription
          supplier := falsyStatusPayload.supplier
          quantity := some (.vNum (parseField falsyStatusPayload.quantity))
          unitOfMeasurement := falsyStatusPayload.unitOfMeasurement
          unitPrice := some (.vNum (parseField falsyStatusPayload.unitPrice))
          totalPrice := some (.vNum (parseField falsyStatusPayload.totalPrice))
          orderDate := falsyStatusPayload.orderDate
          items := falsyStatusPayload.items
          status := some (.vStr "Pending") } ∧ JsValue.vStr "Pending" ≠ .vStr "" :=
  create_falsy_status_defaults falsyStatusPayload (.vStr "")
    (by norm_num [requiredMissing, truthy, truthyVal, falsyStatusPayload, validPayload] <;> decide)
    (by norm_num [parseField, parseFloatVal, falsyStatusPayload, validPayload, JsNum.isNaN])
    (by norm_num [parseField, parseFloatVal, falsyStatusPayload, validPayload, JsNum.isNaN])
    (by norm_num [parseField, parseFloatVal, falsyStatusPayload, validPayload, JsNum.isNaN])
    (by norm_num [parseField, parseFloatVal, falsyStatusPayload, validPayload, strictEqNum,
      roundedToFixed2, jsMul])
    (by simp [falsyStatusPayload])
    (by decide)

/-- An update payload carrying only quantity 5 and unitPrice 4. -/
def quPayload : Payload :=
  { quantity := some (.vNum (.num 5))
    unitPrice := some (.vNum (.num 4)) }

/-- An update payload with quantity 5, unitPrice 4 and a mismatched
totalPrice 999. -/
def badTotalPayload : Payload :=
  { quantity := some (.vNum (.num 5))
    unitPrice := some (.vNum (.num 4))
    totalPrice := some (.vNum (.num 999)) }

/-- An update payload carrying only a status of "Shipped". -/
def statusOnlyPayload : Payload :=
  { status := some (.vStr "Shipped") }

/-- An update payload with quantity 0 and truthy, mutually inconsistent
unitPrice and totalPrice. -/
def zeroQuantityPayload : Payload :=
  { quantity := some (.vNum (.num 0))
    unitPrice := some (.vNum (.num 4))
    totalPrice := some (.vNum (.num 999)) }

/-- An update payload whose quantity is the non-numeric string "abc". -/
def nanQuantityPayload : Payload :=
  { quantity := some (.vStr "abc") }

/-- An update payload whose unitPrice is the non-numeric string "abc". -/
def nanUnitPricePayload : Payload :=
  { unitPrice := some (.vStr "abc") }

/-- An update payload whose totalPrice is the non-numeric string "abc",
next to truthy numeric quantity 5 and unitPrice 4, so the arithmetic gate
is reached and skipped on the falsy parsed totalPrice. -/
def nanTotalPricePayload : Payload :=
  { quantity := some (.vNum (.num 5))
    unitPrice := some (.vNum (.num 4))
    totalPrice := some (.vStr "abc") }

/-- An update payload with quantity 5, unitPrice 0 and truthy, mutually
inconsistent totalPrice 999. -/
def zeroUnitPricePayload : Payload :=
  { quantity := some (.vNum (.num 5))
    unitPrice := some (.vNum (.num 0))
    totalPrice := some (.vNum (.num 999)) }

/-- When the arithmetic recheck does not fire negatively, the update route
reduces to the find-and-update tail. -/
theorem updateOrder_not_rejected (stored : Option MaterialOrder) (p : Payload)
    (hok : ¬ (truthy (parseUpdates p).quantity = true ∧
      truthy (parseUpdates p).unitPrice = true ∧
      truthy (parseUpdates p).totalPrice = true ∧
      strictNeNum (roundedToFixed2 (jsMul (toNumberField (parseUpdates p).quantity)
        (toNumberField (parseUpdates p).unitPrice))) (parseUpdates p).totalPrice = true)) :
    updateOrder stored p = applyUpdate stored (parseUpdates p) := by
  cases hq : truthy (parseUpdates p).quantity with
  | false => simp [updateOrder, hq]
  | true =>
    cases hu : truthy (parseUpdates p).unitPrice with
    | false => simp [updateOrder, hq, hu]
    | true =>
      cases hc : truthy (parseUpdates p).totalPrice with
      | false => simp [updateOrder, hq, hu, hc]
      | true =>
        cases hne : strictNeNum (roundedToFixed2 (jsMul (toNumberField (parseUpdates p).quantity)
            (toNumberField (parseUpdates p).unitPrice))) (parseUpdates p).totalPrice with
        | false => simp [updateOrder, hq, hu, hc, hne]
        | true => exact absurd ⟨hq, hu, hc, hne⟩ hok

/-- C2 counterexample: a mismatched update is answered with the update-route
message, which carries a trailing period and therefore differs from the
create-route message. -/
theorem update_mismatch_message_differs_from_create :
    updateOrder (some sampleOrder) badTotalPayload =
      UpdateResult.badRequest "Error in Total Price: Your total price is incorrect." ∧
    "Error in Total Price: Your total price is incorrect." ≠
      "Error in Total Price: Your total price is incorrect" := by
  constructor
  · norm_num [updateOrder, parseUpdates, parseIfTruthy, truthy, truthyVal, parseFloatVal,
      toNumberField, strictNeNum, strictEqNum, roundedToFixed2, jsMul, badTotalPayload]
  · decide

/-- C2 (amended): the arithmetic recheck of the update route fires only when
quantity, unitPrice and totalPrice are all truthy after parsing, and on a
mismatch it answers 400 with the update-route total-price message (the
create-route message with a trailing period added). -/
theorem update_arith_check_gating (stored : Option MaterialOrder) (p : Payload) :
    (¬ (truthy (parseUpdates p).quantity = true ∧ truthy (parseUpdates p).unitPrice = true ∧
        truthy (parseUpdates p).totalPrice = true) →
      updateOrder stored p = applyUpdate stored (parseUpdates p)) ∧
    (truthy (parseUpdates p).quantity = true → truthy (parseUpdates p).unitPrice = true →
      truthy (parseUpdates p).totalPrice = true →
      strictNeNum (roundedToFixed2 (jsMul (toNumberField (parseUpdates p).quantity)
        (toNumberField (parseUpdates p).unitPrice))) (parseUpdates p).totalPrice = true →
      updateOrder stored p =
        .badRequest "Error in Total Price: Your total price is incorrect.") := by
  constructor
  · intro h
    exact updateOrder_not_rejected stored p (fun hcon => h ⟨hcon.1, hcon.2.1, hcon.2.2.1⟩)
  · intro hq hu hc hne
    simp [updateOrder, hq, hu, hc, hne]

/-- Witness for C2 (amended): quantity 5 with unitPrice 4 and no totalPrice
skips the recheck and reaches storage; with a mismatched totalPrice 999 the
update is answered 400 with the trailing-period message. -/
theorem update_arith_check_gating_witness :
    updateOrder (some sampleOrder) quPayload =
      applyUpdate (some sampleOrder) (parseUpdates quPayload) ∧
    updateOrder (some sampleOrder) badTotalPayload =
      UpdateResult.badRequest "Error in Total Price: Your total price is incorrect." :=
  ⟨(update_arith_check_gating (some sampleOrder) quPayload).1 (by decide),
   (update_arith_check_gating (some sampleOrder) badTotalPayload).2
    (by norm_num [parseUpdates, parseIfTruthy, truthy, truthyVal, parseFloatVal, badTotalPayload])
    (by norm_num [parseUpdates, parseIfTruthy, truthy, truthyVal, parseFloatVal, badTotalPayload])
    (by norm_num [parseUpdates, parseIfTruthy, truthy, truthyVal, parseFloatVal, badTotalPayload])
    (by norm_num [parseUpdates, parseIfTruthy, truthy, truthyVal, parseFloatVal,
      toNumberField, strictNeNum, strictEqNum, roundedToFixed2, jsMul, badTotalPayload])⟩

/-- C6: an update in which quantity, unitPrice or totalPrice is a truthy
non-numeric string undergoes no NaN check: the parse result NaN is forwarded
to storage and stored in that field, with no 400 answered. -/
theorem update_nan_forwarded (r : MaterialOrder) (p : Payload) (s : String)
    (ht : truthyVal (.vStr s) = true) (hnan : parseFloatStr s = .nan)
    (h : p.quantity = some (.vStr s) ∨ p.unitPrice = some (.vStr s) ∨
      p.totalPrice = some (.vStr s)) :
    updateOrder (some r) p =
      .ok "Material request updated successfully" (mergeOrder r (parseUpdates p)) ∧
    (p.quantity = some (.vStr s) →
      (mergeOrder r (parseUpdates p)).quantity = some (.vNum .nan)) ∧
    (p.unitPrice = some (.vStr s) →
      (mergeOrder r (parseUpdates p)).unitPrice = some (.vNum .nan)) ∧
    (p.totalPrice = some (.vStr s) →
      (mergeOrder r (parseUpdates p)).totalPrice = some (.vNum .nan)) := by
  have hqn : p.quantity = some (.vStr s) →
      (parseUpdates p).quantity = some (.vNum .nan) := fun hq => by
    simp [parseUpdates, parseIfTruthy, hq, ht, parseFloatVal, hnan]
  have hun : p.unitPrice = some (.vStr s) →
      (parseUpdates p).unitPrice = some (.vNum .nan) := fun hu => by
    simp [parseUpdates, parseIfTruthy, hu, ht, parseFloatVal, hnan]
  have htn : p.totalPrice = some (.vStr s) →
      (parseUpdates p).totalPrice = some (.vNum .nan) := fun htp => by
    simp [parseUpdates, parseIfTruthy, htp, ht, parseFloatVal, hnan]
  have hok : ¬ (truthy (parseUpdates p).quantity = true ∧
      truthy (parseUpdates p).unitPrice = true ∧
      truthy (parseUpdates p).totalPrice = true ∧
      strictNeNum (roundedToFixed2 (jsMul (toNumberField (parseUpdates p).quantity)
        (toNumberField (parseUpdates p).unitPrice))) (parseUpdates p).totalPrice = true) := by
    rcases h with h1 | h1 | h1
    · exact fun hcon => absurd hcon.1 (by simp [truthy, hqn h1, truthyVal])
    · exact fun hcon => absurd hcon.2.1 (by simp [truthy, hun h1, truthyVal])
    · exact fun hcon => absurd hcon.2.2.1 (by simp [truthy, htn h1, truthyVal])
  refine ⟨?_, ?_, ?_, ?_⟩
  · rw [updateOrder_not_rejected (some r) p hok]
    rfl
  · intro hq
    simp [mergeOrder, setField, hqn hq]
  · intro hu
    simp [mergeOrder, setField, hun hu]
  · intro htp
    simp [mergeOrder, setField, htn htp]

/-- Witness for C6: updates carrying the string "abc" as quantity, as
unitPrice, or as totalPrice are each answered 200 with the merged document
holding NaN in that field. -/
theorem update_nan_forwarded_witness :
    (updateOrder (some sampleOrder) nanQuantityPayload =
        UpdateResult.ok "Material request updated successfully"
          (mergeOrder sampleOrder (parseUpdates nanQuantityPayload)) ∧
      (mergeOrder sampleOrder (parseUpdates nanQuantityPayload)).quantity =
        some (.vNum .nan)) ∧
    (updateOrder (some sampleOrder) nanUnitPricePayload =
        UpdateResult.ok "Material request updated successfully"
          (mergeOrder sampleOrder (parseUpdates nanUnitPricePayload)) ∧
      (mergeOrder sampleOrder (parseUpdates nanUnitPricePayload)).unitPrice =
        some (.vNum .nan)) ∧
    (updateOrder (some sampleOrder) nanTotalPricePayload =
        UpdateResult.ok "Material request updated successfully"
          (mergeOrder sampleOrder (parseUpdates nanTotalPricePayload)) ∧
      (mergeOrder sampleOrder (parseUpdates nanTotalPricePayload)).totalPrice =
        some (.vNum .nan)) :=
  ⟨⟨(update_nan_forwarded sampleOrder nanQuantityPayload "abc"
      (by decide) (by decide) (Or.inl rfl)).1,
    (update_nan_forwarded sampleOrder nanQuantityPayload "abc"
      (by decide) (by decide) (Or.inl rfl)).2.1 rfl⟩,
   ⟨(update_nan_forwarded sampleOrder nanUnitPricePayload "abc"
      (by decide) (by decide) (Or.inr (Or.inl rfl))).1,
    (update_nan_forwarded sampleOrder nanUnitPricePayload "abc"
      (by decide) (by decide) (Or.inr (Or.inl rfl))).2.2.1 rfl⟩,
   ⟨(update_nan_forwarded sampleOrder nanTotalPricePayload "abc"
      (by decide) (by decide) (Or.inr (Or.inr rfl))).1,
    (update_nan_forwarded sampleOrder nanTotalPricePayload "abc"
      (by decide) (by decide) (Or.inr (Or.inr rfl))).2.2.2 rfl⟩⟩

/-- C9: an update in which quantity or unitPrice is present but falsy (for
example the number 0) leaves that field unparsed and bypasses the
arithmetic recheck entirely, so the update is answered 200 regardless of
the remaining numeric fields. -/
theorem update_falsy_quantity_bypasses_check (r : MaterialOrder) (p : Payload) (v : JsValue)
    (hf : truthyVal v = false)
    (h : p.quantity = some v ∨ p.unitPrice = some v) :
    (p.quantity = some v → (parseUpdates p).quantity = p.quantity) ∧
    (p.unitPrice = some v → (parseUpdates p).unitPrice = p.unitPrice) ∧
    updateOrder (some r) p =
      .ok "Material request updated successfully" (mergeOrder r (parseUpdates p)) := by
  have hq1 : p.quantity = some v → (parseUpdates p).quantity = some v := fun hq => by
    simp [parseUpdates, parseIfTruthy, hq, hf]
  have hu1 : p.unitPrice = some v → (parseUpdates p).unitPrice = some v := fun hu => by
    simp [parseUpdates, parseIfTruthy, hu, hf]
  have hok : ¬ (truthy (parseUpdates p).quantity = true ∧
      truthy (parseUpdates p).unitPrice = true ∧
      truthy (parseUpdates p).totalPrice = true ∧
      strictNeNum (roundedToFixed2 (jsMul (toNumberField (parseUpdates p).quantity)
        (toNumberField (parseUpdates p).unitPrice))) (parseUpdates p).totalPrice = true) := by
    rcases h with h1 | h1
    · exact fun hcon => absurd hcon.1 (by simp [truthy, hq1 h1, hf])
    · exact fun hcon => absurd hcon.2.1 (by simp [truthy, hu1 h1, hf])
  refine ⟨fun hq => by rw [hq1 hq, hq], fun hu => by rw [hu1 hu, hu], ?_⟩
  rw [updateOrder_not_rejected (some r) p hok]
  rfl

/-- Witness for C9: quantity 0 next to truthy, inconsistent unitPrice 4 and
totalPrice 999 is not parsed, bypasses the recheck and is answered 200; the
same holds for unitPrice 0 next to quantity 5 and totalPrice 999. -/
theorem update_falsy_quantity_bypasses_check_witness :
    ((parseUpdates zeroQuantityPayload).quantity = zeroQuantityPayload.quantity ∧
      updateOrder (some sampleOrder) zeroQuantityPayload =
        UpdateResult.ok "Material request updated successfully"
          (mergeOrder sampleOrder (parseUpdates zeroQuantityPayload))) ∧
    ((parseUpdates zeroUnitPricePayload).unitPrice = zeroUnitPricePayload.unitPrice ∧
      updateOrder (some sampleOrder) zeroUnitPricePayload =
        UpdateResult.ok "Material request updated successfully"
          (mergeOrder sampleOrder (parseUpdates zeroUnitPricePayload))) :=
  ⟨⟨(update_falsy_quantity_bypasses_check sampleOrder zeroQuantityPayload
      (.vNum (.num 0)) (by norm_num [truthyVal]) (Or.inl rfl)).1 rfl,
    (update_falsy_quantity_bypasses_check sampleOrder zeroQuantityPayload
      (.vNum (.num 0)) (by norm_num [truthyVal]) (Or.inl rfl)).2.2⟩,
   ⟨(update_falsy_quantity_bypasses_check sampleOrder zeroUnitPricePayload
      (.vNum (.num 0)) (by norm_num [truthyVal]) (Or.inr rfl)).2.1 rfl,
    (update_falsy_quantity_bypasses_check sampleOrder zeroUnitPricePayload
      (.vNum (.num 0)) (by norm_num [truthyVal]) (Or.inr rfl)).2.2⟩⟩

/-- C7: an update of an existing record that is not rejected by the
arithmetic recheck is answered 200 with the post-update record, and every
field absent from the payload is left unchanged in that record. -/
theorem update_frame_unchanged (r : MaterialOrder) (p : Payload)
    (hok : ¬ (truthy (parseUpdates p).quantity = true ∧
      truthy (parseUpdates p).unitPrice = true ∧
      truthy (parseUpdates p).totalPrice = true ∧
      strictNeNum (roundedToFixed2 (jsMul (toNumberField (parseUpdates p).quantity)
        (toNumberField (parseUpdates p).unitPrice))) (parseUpdates p).totalPrice = true)) :
    updateOrder (some r) p =
      .ok "Material request updated successfully" (mergeOrder r (parseUpdates p)) ∧
    (p.materialId = none → (mergeOrder r (parseUpdates p)).materialId = r.materialId) ∧
    (p.itemDescription = none →
      (mergeOrder r (parseUpdates p)).itemDescription = r.itemDescription) ∧
    (p.supplier = none → (mergeOrder r (parseUpdates p)).supplier = r.supplier) ∧
    (p.quantity = none → (mergeOrder r (parseUpdates p)).quantity = r.quantity) ∧
    (p.unitOfMeasurement = none →
      (mergeOrder r (parseUpdates p)).unitOfMeasurement = r.unitOfMeasurement) ∧
    (p.unitPrice = none → (mergeOrder r (parseUpdates p)).unitPrice = r.unitPrice) ∧
    (p.totalPrice = none → (mergeOrder r (parseUpdates p)).totalPrice = r.totalPrice) ∧
    (p.orderDate = none → (mergeOrder r (parseUpdates p)).orderDate = r.orderDate) ∧
    (p.items = none → (mergeOrder r (parseUpdates p)).items = r.items) ∧
    (p.status = none → (mergeOrder r (parseUpdates p)).status = r.status) := by
  refine ⟨?_, ?_, ?_, ?_, ?_, ?_, ?_, ?_, ?_, ?_, ?_⟩
  · rw [updateOrder_not_rejected (some r) p hok]
    rfl
  all_goals intro h
  all_goals simp [mergeOrder, parseUpdates, parseIfTruthy, setField, h]

/-- Witness for C7: an update of the sample order carrying only a status of
"Shipped" is answered 200 and leaves every other field unchanged. -/
theorem update_frame_unchanged_witness :
    updateOrder (some sampleOrder) statusOnlyPayload =
      UpdateResult.ok "Material request updated successfully"
        (mergeOrder sampleOrder (parseUpdates statusOnlyPayload)) ∧
    (statusOnlyPayload.materialId = none →
      (mergeOrder sampleOrder (parseUpdates statusOnlyPayload)).materialId =
        sampleOrder.materialId) ∧
    (statusOnlyPayload.itemDescription = none →
      (mergeOrder sampleOrder (parseUpdates statusOnlyPayload)).itemDescription =
        sampleOrder.itemDescription) ∧
    (statusOnlyPayload.supplier = none →
      (mergeOrder sampleOrder (parseUpdates statusOnlyPayload)).supplier =
        sampleOrder.supplier) ∧
    (statusOnlyPayload.quantity = none →
      (mergeOrder sampleOrder (parseUpdates statusOnlyPayload)).quantity =
        sampleOrder.quantity) ∧
    (statusOnlyPayload.unitOfMeasurement = none →
      (mergeOrder sampleOrder (parseUpdates statusOnlyPayload)).unitOfMeasurement =
        sampleOrder.unitOfMeasurement) ∧
    (statusOnlyPayload.unitPrice = none →
      (mergeOrder sampleOrder (parseUpdates statusOnlyPayload)).unitPrice =
        sampleOrder.unitPrice) ∧
    (statusOnlyPayload.totalPrice = none →
      (mergeOrder sampleOrder (parseUpdates statusOnlyPayload)).totalPrice =
        sampleOrder.totalPrice) ∧
    (statusOnlyPayload.orderDate = none →
      (mergeOrder sampleOrder (parseUpdates statusOnlyPayload)).orderDate =
        sampleOrder.orderDate) ∧
    (statusOnlyPayload.items = none →
      (mergeOrder sampleOrder (parseUpdates statusOnlyPayload)).items =
        sampleOrder.items) ∧
    (statusOnlyPayload.status = none →
      (mergeOrder sampleOrder (parseUpdates statusOnlyPayload)).status =
        sampleOrder.status) :=
  update_frame_unchanged sampleOrder statusOnlyPayload (by decide)

/-- After erasing the document a key resolves to, a collection with distinct
keys holds no further document with that key. -/
theorem find?_eraseP_eq_none (db : Store) (id : ℕ)
    (hnd : (db.map Prod.fst).Nodup) :
    (db.eraseP (fun e => e.1 == id)).find? (fun e => e.1 == id) = none := by
  induction db with
  | nil => rfl
  | cons e es ih =>
    simp only [List.map_cons, List.nodup_cons] at hnd
    by_cases he : e.1 = id
    · rw [List.eraseP_cons_of_pos (by simpa using he)]
      rw [List.find?_eq_none]
      intro x hx
      simp only [beq_iff_eq]
      intro hxid
      exact hnd.1 (he ▸ hxid ▸ List.mem_map_of_mem Prod.fst hx)
    · rw [List.eraseP_cons_of_neg (by simpa using he)]
      rw [List.find?_cons_of_neg _ (by simpa using he)]
      exact ih hnd.2

/-- C8: over a collection with distinct ids, deleting an existing id answers
200 with only the deletion message and makes a subsequent get-by-id answer
404, while deleting a nonexistent id answers 404. -/
theorem delete_then_get_not_found (db : Store) (id : ℕ)
    (hnd : (db.map Prod.fst).Nodup) :
    ((findByIdFn db id).isSome = true →
      (deleteById db id).1 = .okMsg "Material order deleted successfully" ∧
      getById (deleteById db id).2 id = .notFound "Material order not found") ∧
    (findByIdFn db id = none →
      (deleteById db id).1 = .notFound "Material order not found") := by
  constructor
  · intro h
    obtain ⟨r, hr⟩ := Option.isSome_iff_exists.mp h
    have hd : deleteById db id =
        (.okMsg "Material order deleted successfully", db.eraseP (fun e => e.1 == id)) := by
      simp [deleteById, hr]
    refine ⟨by rw [hd], ?_⟩
    rw [hd]
    simp [getById, findByIdFn, find?_eraseP_eq_none db id hnd]
  · intro h
    simp [deleteById, h]

/-- Witness for C8: on the one-document collection, deleting id 1 answers
the deletion message and a subsequent get of id 1 answers 404; deleting
id 2 answers 404. -/
theorem delete_then_get_not_found_witness :
    ((deleteById [(1, sampleOrder)] 1).1 =
        DeleteResult.okMsg "Material order deleted successfully" ∧
      getById (deleteById [(1, sampleOrder)] 1).2 1 =
        GetResult.notFound "Material order not found") ∧
    (deleteById [(1, sampleOrder)] 2).1 =
      DeleteResult.notFound "Material order not found" :=
  ⟨(delete_then_get_not_found [(1, sampleOrder)] 1 (by decide)).1 (by decide),
   (delete_then_get_not_found [(1, sampleOrder)] 2 (by decide)).2 (by decide)⟩

end MaterialOrderRoute
